import Mathlib

/-!
Shallow embedding of `app/api/tickets.py` (open-event-server ticket endpoints):
the `TicketSchema` validation callbacks and field validators, the
`TicketListPost.before_post` permission hook, the `TicketList.query` filter
composition, and the `TicketDetail.before_get_object` lookup rewrite.

Python exceptions are modelled with `Except`; a dict field that may be absent
is an `Option`; datetimes are integers (only their ordering matters); model
rows are structures and the database is explicit lists of rows.
-/

/-- The exceptions that can escape the embedded code: the two JSON:API error
kinds raised by the file (`ObjectNotFound`, `UnprocessableEntity`), marshmallow
field validation failure, and the raw Python errors `KeyError`,
`AttributeError` and SQLAlchemy `NoResultFound`. -/
inductive ApiError where
  | objectNotFound (parameter : String) (message : String)
  | unprocessableEntity (pointer : String) (message : String)
  | validationError (field : String)
  | keyError (key : String)
  | attributeError (name : String)
  | noResultFound
  deriving DecidableEq, Repr

/-- A Python value as it appears in a loaded payload dict or a model column:
an integer id or a string identifier. -/
inductive PyVal where
  | nat (n : Nat)
  | str (s : String)
  deriving DecidableEq, Repr

instance : BEq PyVal := instBEqOfDecidableEq

/-- String rendering used when a value is spliced into an error message. -/
def PyVal.fmt : PyVal → String
  | PyVal.nat n => toString n
  | PyVal.str s => s

/-- A row of the `tickets` table, with the many-to-many link tables
(`ticket_tags_table`, access-code association) folded in as id lists.
`sales_starts_at`/`sales_ends_at` are non-null columns (the schema declares
both fields `required=True`). -/
structure Ticket where
  id : Nat
  event_id : Nat
  tag_ids : List Nat
  access_code_ids : List Nat
  sales_starts_at : Int
  sales_ends_at : Int
  deriving DecidableEq, Repr

/-- A row of the `ticket_tags` table. -/
structure TicketTag where
  id : Nat
  deriving DecidableEq, Repr

/-- A row of the `access_codes` table. -/
structure AccessCode where
  id : Nat
  deriving DecidableEq, Repr

/-- A row of the `orders` table: `identifier` is its public string identifier
and `tickets` the many-to-many ticket collection, kept as ids. -/
structure Order where
  id : Nat
  identifier : String
  ticket_ids : List Nat
  deriving DecidableEq, Repr

/-- A row of the `ticket_holders` (attendee) table; `ticket_id` is nullable. -/
structure TicketHolder where
  id : Nat
  ticket_id : Option Nat
  deriving DecidableEq, Repr

/-- An event row, only what ticket queries consult: primary key and public
string identifier. -/
structure Event where
  id : Nat
  identifier : String
  deriving DecidableEq, Repr

/-- The database state the ticket endpoints read. -/
structure Database where
  tickets : List Ticket
  ticket_tags : List TicketTag
  access_codes : List AccessCode
  orders : List Order
  ticket_holders : List TicketHolder
  events : List Event
  deriving DecidableEq, Repr

/-- Python truthiness of `view_kwargs.get(k)` for an integer-valued kwarg:
absent and `0` are falsy. -/
def truthyNat : Option Nat → Bool
  | none => false
  | some n => n != 0

/-- Python truthiness of `view_kwargs.get(k)` for a string-valued kwarg:
absent and the empty string are falsy. -/
def truthyStr : Option String → Bool
  | none => false
  | some s => s != ""

/-- Resolution of `getattr(Order, name)` to a column accessor, as Python
attribute lookup: an unknown name is an `AttributeError`. The `Order` model
has columns `id` and `identifier`. -/
def Order.getattr (name : String) : Except ApiError (Order → PyVal) :=
  if name == "id" then Except.ok (fun o => PyVal.nat o.id)
  else if name == "identifier" then Except.ok (fun o => PyVal.str o.identifier)
  else Except.error (ApiError.attributeError name)

/-- Modelled from the spec: `safe_query` (app/api/helpers/db.py, not under
src/) looks up one record of the given model by a named attribute and
surfaces a missing referenced entity as `ObjectNotFound` with the given
parameter name. Looking up the attribute on the model behaves like Python
`getattr`. This is the `Order` instance. -/
def safe_query_order (db : Database) (attr : String) (value : PyVal) (param : String) :
    Except ApiError Order := do
  let col ← Order.getattr attr
  match db.orders.find? (fun o => col o == value) with
  | some o => Except.ok o
  | none => Except.error (ApiError.objectNotFound param ("Order: " ++ value.fmt ++ " not found"))

/-- Modelled from the spec: `safe_query` instance for `TicketTag`, looked up
by its `id` column (any other attribute name would be an `AttributeError`). -/
def safe_query_ticket_tag (db : Database) (attr : String) (value : Nat) (param : String) :
    Except ApiError TicketTag :=
  if attr == "id" then
    match db.ticket_tags.find? (fun tg => tg.id == value) with
    | some tg => Except.ok tg
    | none =>
      Except.error (ApiError.objectNotFound param ("TicketTag: " ++ toString value ++ " not found"))
  else Except.error (ApiError.attributeError attr)

/-- Modelled from the spec: `safe_query` instance for `AccessCode`, looked up
by its `id` column. -/
def safe_query_access_code (db : Database) (attr : String) (value : Nat) (param : String) :
    Except ApiError AccessCode :=
  if attr == "id" then
    match db.access_codes.find? (fun c => c.id == value) with
    | some c => Except.ok c
    | none =>
      Except.error (ApiError.objectNotFound param ("AccessCode: " ++ toString value ++ " not found"))
  else Except.error (ApiError.attributeError attr)

/-- Modelled from the spec: `safe_query` instance for `TicketHolder`, looked
up by its `id` column. -/
def safe_query_ticket_holder (db : Database) (attr : String) (value : Nat) (param : String) :
    Except ApiError TicketHolder :=
  if attr == "id" then
    match db.ticket_holders.find? (fun h => h.id == value) with
    | some h => Except.ok h
    | none =>
      Except.error
        (ApiError.objectNotFound param ("TicketHolder: " ++ toString value ++ " not found"))
  else Except.error (ApiError.attributeError attr)

/-- The view kwargs a `TicketList` request can carry (URL path parameters). -/
structure ViewKwargs where
  ticket_tag_id : Option Nat
  event_id : Option Nat
  event_identifier : Option String
  access_code_id : Option Nat
  order_identifier : Option String
  order_id : Option Nat
  deriving DecidableEq, Repr

/-- Modelled from the spec: the helper `event_query` (app/api/helpers/query.py,
not under src/) restricts a ticket query to the event named in the view kwargs
(endpoints are parameterized by event identifiers, and a missing referenced
entity yields `ObjectNotFound`); with no event kwarg the query passes through
unchanged. -/
def event_query (db : Database) (q : List Ticket) (vk : ViewKwargs) :
    Except ApiError (List Ticket) :=
  if truthyStr vk.event_identifier then
    match db.events.find? (fun e => e.identifier == vk.event_identifier.getD "") with
    | some e => Except.ok (q.filter (fun t => t.event_id == e.id))
    | none =>
      Except.error
        (ApiError.objectNotFound "event_identifier"
          ("Event: " ++ vk.event_identifier.getD "" ++ " not found"))
  else if truthyNat vk.event_id then
    match db.events.find? (fun e => e.id == vk.event_id.getD 0) with
    | some e => Except.ok (q.filter (fun t => t.event_id == e.id))
    | none =>
      Except.error
        (ApiError.objectNotFound "event_id"
          ("Event: " ++ toString (vk.event_id.getD 0) ++ " not found"))
  else Except.ok q

namespace TicketList

/-- `TicketList.query`: builds the ticket list query from the view kwargs.
Branch by branch as in the source: the ticket-tag branch joins the tag link
table and filters; `event_query` applies the event filter; the access-code
branch evaluates `Ticket.query.filter(Ticket.access_codes.any(id=...))`,
i.e. a fresh full-table query filtered only by the access code; an
`order_identifier` is resolved to an `order_id` through
`safe_query(self, Order, 'identifer', ...)` (attribute name as spelled in the
source); the order branch keeps tickets whose id is in the order's ticket
collection. -/
def query (db : Database) (vk : ViewKwargs) : Except ApiError (List Ticket) := do
  let query0 := db.tickets
  let query1 ←
    if truthyNat vk.ticket_tag_id then do
      let ticket_tag ←
        safe_query_ticket_tag db "id" (vk.ticket_tag_id.getD 0) "ticket_tag_id"
      pure (query0.filter (fun t => t.tag_ids.contains ticket_tag.id))
    else pure query0
  let query2 ← event_query db query1 vk
  let query3 ←
    if truthyNat vk.access_code_id then do
      let access_code ←
        safe_query_access_code db "id" (vk.access_code_id.getD 0) "access_code_id"
      pure (db.tickets.filter (fun t => t.access_code_ids.contains access_code.id))
    else pure query2
  let order_id ←
    if truthyStr vk.order_identifier then do
      let order ←
        safe_query_order db "identifer" (PyVal.str (vk.order_identifier.getD ""))
          "order_identifer"
      pure (some order.id)
    else pure vk.order_id
  if truthyNat order_id then do
    let order ← safe_query_order db "id" (PyVal.nat (order_id.getD 0)) "order_id"
    pure (query3.filter (fun t => order.ticket_ids.contains t.id))
  else pure query3

end TicketList

/-- The writable attribute dict a ticket payload deserializes to, restricted
to the fields the validation callbacks read. `none` means the key is absent
from the dict. -/
structure TicketData where
  sales_starts_at : Option Int
  sales_ends_at : Option Int
  min_order : Option Int
  max_order : Option Int
  quantity : Option Int
  deriving DecidableEq, Repr

/-- `data[key]` on an optional date entry: absent is a `KeyError`. -/
def dataGetDate (v : Option Int) (key : String) : Except ApiError Int :=
  match v with
  | some n => Except.ok n
  | none => Except.error (ApiError.keyError key)

/-- `Ticket.query.filter_by(id=i).one()`: SQLAlchemy `.one()` raises
`NoResultFound` when no row matches. -/
def ticket_query_one (db : Database) (i : Nat) : Except ApiError Ticket :=
  match db.tickets.find? (fun t => t.id == i) with
  | some t => Except.ok t
  | none => Except.error ApiError.noResultFound

namespace TicketSchema

/-- The first half of `TicketSchema.validate_date`: when the original request
document carries an `id` (an update), load the stored ticket and copy its
`sales_starts_at`/`sales_ends_at` into the payload for each of the two keys
the payload omits. -/
def backfill_dates (db : Database) (original_id : Option Nat) (data : TicketData) :
    Except ApiError TicketData :=
  match original_id with
  | none => Except.ok data
  | some i => do
    let ticket ← ticket_query_one db i
    let d1 :=
      if data.sales_starts_at.isNone then
        { data with sales_starts_at := some ticket.sales_starts_at }
      else data
    let d2 :=
      if d1.sales_ends_at.isNone then
        { d1 with sales_ends_at := some ticket.sales_ends_at }
      else d1
    Except.ok d2

/-- `TicketSchema.validate_date`: backfill missing dates on an update, then
reject with pointer `/data/attributes/sales-ends-at` when
`sales_starts_at >= sales_ends_at`. Returns the (possibly backfilled) data on
success, mirroring the mutation of the `data` dict. -/
def validate_date (db : Database) (original_id : Option Nat) (data : TicketData) :
    Except ApiError TicketData := do
  let data ← backfill_dates db original_id data
  let s ← dataGetDate data.sales_starts_at "sales_starts_at"
  let e ← dataGetDate data.sales_ends_at "sales_ends_at"
  if s ≥ e then
    Except.error
      (ApiError.unprocessableEntity "/data/attributes/sales-ends-at"
        "sales-ends-at should be after sales-starts-at")
  else Except.ok data

/-- First check of `TicketSchema.validate_quantity`: when both `max_order`
and `min_order` are in the payload, reject `max_order < min_order` with
pointer `/data/attributes/max-order`. -/
def check_max_order (data : TicketData) : Except ApiError Unit :=
  match data.max_order, data.min_order with
  | some mx, some mn =>
    if mx < mn then
      Except.error
        (ApiError.unprocessableEntity "/data/attributes/max-order"
          "max-order should be greater than min-order")
    else Except.ok ()
  | _, _ => Except.ok ()

/-- Second check of `TicketSchema.validate_quantity`: when both `quantity`
and `min_order` are in the payload, reject `quantity < min_order` with
pointer `/data/attributes/quantity`. -/
def check_quantity (data : TicketData) : Except ApiError Unit :=
  match data.quantity, data.min_order with
  | some q, some mn =>
    if q < mn then
      Except.error
        (ApiError.unprocessableEntity "/data/attributes/quantity"
          "quantity should be greater than min-order")
    else Except.ok ()
  | _, _ => Except.ok ()

/-- `TicketSchema.validate_quantity`: the two payload-only bound checks in
source order. It takes no database: the callback reads only `data`. -/
def validate_quantity (data : TicketData) : Except ApiError Unit := do
  check_max_order data
  check_quantity data

end TicketSchema

/-- A submitted value for a single nullable field: JSON `null` or a value. -/
inductive FieldVal (α : Type) where
  | null
  | val (a : α)
  deriving DecidableEq, Repr

/-- Marshmallow deserialization of a field declared `allow_none=True` with a
`validate` callback: `None` is accepted without running the validator, any
other value must satisfy it or the field fails validation. -/
def load_nullable {α : Type} (validate : α → Bool) (field : String) :
    FieldVal α → Except ApiError (FieldVal α)
  | FieldVal.null => Except.ok FieldVal.null
  | FieldVal.val a =>
    if validate a then Except.ok (FieldVal.val a)
    else Except.error (ApiError.validationError field)

namespace TicketSchema

/-- `price = fields.Float(validate=lambda n: n >= 0, allow_none=True)`;
the float values the validator compares are modelled as rationals. -/
def price (v : FieldVal ℚ) : Except ApiError (FieldVal ℚ) :=
  load_nullable (fun n => n ≥ 0) "price" v

/-- `quantity = fields.Integer(validate=lambda n: n >= 0, allow_none=True)`. -/
def quantity (v : FieldVal Int) : Except ApiError (FieldVal Int) :=
  load_nullable (fun n => n ≥ 0) "quantity" v

/-- `min_order = fields.Integer(validate=lambda n: n >= 0, allow_none=True)`. -/
def min_order (v : FieldVal Int) : Except ApiError (FieldVal Int) :=
  load_nullable (fun n => n ≥ 0) "min_order" v

/-- `max_order = fields.Integer(validate=lambda n: n >= 0, allow_none=True)`. -/
def max_order (v : FieldVal Int) : Except ApiError (FieldVal Int) :=
  load_nullable (fun n => n ≥ 0) "max_order" v

end TicketSchema

/-- `data[k]` on the loaded payload dict: a missing key is a `KeyError`. -/
def dict_get (d : List (String × PyVal)) (k : String) : Except ApiError PyVal :=
  match d.find? (fun p => p.fst == k) with
  | some p => Except.ok p.snd
  | none => Except.error (ApiError.keyError k)

/-- Modelled from the spec: `require_relationship` (app/api/helpers/utilities.py,
not under src/) checks each named relationship is present in the loaded
payload and raises `UnprocessableEntity` pointing at the missing relationship
otherwise. -/
def require_relationship (rels : List String) (data : List (String × PyVal)) :
    Except ApiError Unit :=
  match rels.find? (fun r => (data.find? (fun p => p.fst == r)).isNone) with
  | some r =>
    Except.error
      (ApiError.unprocessableEntity ("/data/relationships/" ++ r)
        (r ++ " is a required relationship"))
  | none => Except.ok ()

namespace TicketListPost

/-- `TicketListPost.before_post`: require the `event` relationship, check
`has_access('is_coorganizer', event_id=data['event'])`, and on denial raise
`ObjectNotFound` whose message formats `data['event_id']`. `has_access`
(app/api/helpers/permission_manager.py, not under src/) is abstracted as a
boolean oracle over the permission name and the event value. -/
def before_post (has_access : String → PyVal → Bool) (data : List (String × PyVal)) :
    Except ApiError Unit := do
  require_relationship ["event"] data
  let ev ← dict_get data "event"
  if has_access "is_coorganizer" ev then Except.ok ()
  else do
    let eid ← dict_get data "event_id"
    Except.error (ApiError.objectNotFound "event_id" ("Event: " ++ eid.fmt ++ " not found"))

end TicketListPost

/-- The view kwargs of a `TicketDetail` request. An entry set to Python `None`
and an absent entry both read back as `None` through `view_kwargs.get`, so
both are `none`. -/
structure DetailViewKwargs where
  id : Option Nat
  attendee_id : Option Nat
  deriving DecidableEq, Repr

namespace TicketDetail

/-- `TicketDetail.before_get_object`: when `attendee_id` is not `None`, load
the attendee through `safe_query` and replace the lookup `id` with the
attendee's `ticket_id` (which may be null). Returns the updated view kwargs. -/
def before_get_object (db : Database) (vk : DetailViewKwargs) :
    Except ApiError DetailViewKwargs := do
  match vk.attendee_id with
  | some aid => do
    let attendee ← safe_query_ticket_holder db "id" aid "attendee_id"
    match attendee.ticket_id with
    | some tid => pure { vk with id := some tid }
    | none => pure { vk with id := none }
  | none => pure vk

end TicketDetail

/-- C3: `TicketSchema.validate_date` raises `UnprocessableEntity` with pointer
`/data/attributes/sales-ends-at` if and only if the effective
`sales_starts_at` is greater than or equal to the effective `sales_ends_at`;
strictly ordered timestamps pass the check. -/
theorem C3_validate_date_rejects_iff (db : Database) (oid : Option Nat)
    (data d : TicketData) (s e : Int)
    (hb : TicketSchema.backfill_dates db oid data = Except.ok d)
    (hs : d.sales_starts_at = some s) (he : d.sales_ends_at = some e) :
    (TicketSchema.validate_date db oid data =
        Except.error
          (ApiError.unprocessableEntity "/data/attributes/sales-ends-at"
            "sales-ends-at should be after sales-starts-at")
      ↔ s ≥ e)
    ∧ (s < e → TicketSchema.validate_date db oid data = Except.ok d) := by
  have hv : TicketSchema.validate_date db oid data =
      if s ≥ e then
        Except.error
          (ApiError.unprocessableEntity "/data/attributes/sales-ends-at"
            "sales-ends-at should be after sales-starts-at")
      else Except.ok d := by
    simp [TicketSchema.validate_date, hb, hs, he, dataGetDate, bind, Except.bind]
  by_cases h : s ≥ e
  · simp [hv, h]
  · simp [hv, h]

/-- C3 witness: a creation payload with `sales_starts_at = 5` and
`sales_ends_at = 3` is rejected with the sales-ends-at pointer. -/
theorem C3_witness :
    TicketSchema.validate_date ⟨[], [], [], [], [], []⟩ none
        ⟨some 5, some 3, none, none, none⟩ =
      Except.error
        (ApiError.unprocessableEntity "/data/attributes/sales-ends-at"
          "sales-ends-at should be after sales-starts-at") :=
  (C3_validate_date_rejects_iff ⟨[], [], [], [], [], []⟩ none
      ⟨some 5, some 3, none, none, none⟩ ⟨some 5, some 3, none, none, none⟩ 5 3
      rfl rfl rfl).1.mpr (by norm_num)

/-- C4: when both `max_order` and `min_order` are in the payload,
`TicketSchema.validate_quantity` raises `UnprocessableEntity` with pointer
`/data/attributes/max-order` if and only if `max_order < min_order`. -/
theorem C4_max_order_rejects_iff (data : TicketData) (mx mn : Int)
    (hmx : data.max_order = some mx) (hmn : data.min_order = some mn) :
    TicketSchema.validate_quantity data =
        Except.error
          (ApiError.unprocessableEntity "/data/attributes/max-order"
            "max-order should be greater than min-order")
      ↔ mx < mn := by
  have hcm : TicketSchema.check_max_order data =
      if mx < mn then
        Except.error
          (ApiError.unprocessableEntity "/data/attributes/max-order"
            "max-order should be greater than min-order")
      else Except.ok () := by
    simp [TicketSchema.check_max_order, hmx, hmn]
  by_cases h : mx < mn
  · simp [TicketSchema.validate_quantity, hcm, h, bind, Except.bind]
  · simp [TicketSchema.validate_quantity, hcm, h, bind, Except.bind]
    cases hq : data.quantity with
    | none => simp [TicketSchema.check_quantity, hq, hmn]
    | some q =>
      simp only [TicketSchema.check_quantity, hq, hmn]
      split <;> simp

/-- C4 witness: `max_order = 3`, `min_order = 5` is rejected with the
max-order pointer. -/
theorem C4_witness :
    TicketSchema.validate_quantity ⟨none, none, some 5, some 3, none⟩ =
      Except.error
        (ApiError.unprocessableEntity "/data/attributes/max-order"
          "max-order should be greater than min-order") :=
  (C4_max_order_rejects_iff ⟨none, none, some 5, some 3, none⟩ 3 5 rfl rfl).mpr
    (by norm_num)

/-- C5: when both `quantity` and `min_order` are in the payload and the
`max_order`/`min_order` check did not already fail,
`TicketSchema.validate_quantity` raises `UnprocessableEntity` with pointer
`/data/attributes/quantity` if and only if `quantity < min_order`. -/
theorem C5_quantity_rejects_iff (data : TicketData) (q mn : Int)
    (hq : data.quantity = some q) (hmn : data.min_order = some mn)
    (hmax : ∀ mx, data.max_order = some mx → mn ≤ mx) :
    TicketSchema.validate_quantity data =
        Except.error
          (ApiError.unprocessableEntity "/data/attributes/quantity"
            "quantity should be greater than min-order")
      ↔ q < mn := by
  have hcm : TicketSchema.check_max_order data = Except.ok () := by
    cases hmx : data.max_order with
    | none => simp [TicketSchema.check_max_order, hmx, hmn]
    | some mx =>
      have := hmax mx hmx
      simp [TicketSchema.check_max_order, hmx, hmn]
      omega
  have hcq : TicketSchema.check_quantity data =
      if q < mn then
        Except.error
          (ApiError.unprocessableEntity "/data/attributes/quantity"
            "quantity should be greater than min-order")
      else Except.ok () := by
    simp [TicketSchema.check_quantity, hq, hmn]
  by_cases h : q < mn
  · simp [TicketSchema.validate_quantity, hcm, hcq, h, bind, Except.bind]
  · simp [TicketSchema.validate_quantity, hcm, hcq, h, bind, Except.bind]

/-- C5 witness: `quantity = 2`, `min_order = 5`, no `max_order` in the
payload: rejected with the quantity pointer. -/
theorem C5_witness :
    TicketSchema.validate_quantity ⟨none, none, some 5, none, some 2⟩ =
      Except.error
        (ApiError.unprocessableEntity "/data/attributes/quantity"
          "quantity should be greater than min-order") :=
  (C5_quantity_rejects_iff ⟨none, none, some 5, none, some 2⟩ 2 5 rfl rfl
    (by intro mx hmx; simp at hmx)).mpr (by norm_num)

/-- C9: `TicketSchema.validate_quantity` reads only the submitted payload and
never backfills stored values: whenever `min_order` is absent from the
payload, both checks are skipped and the payload is accepted, whatever
`max_order` and `quantity` it carries and whatever the stored ticket holds
(the callback takes no database at all). -/
theorem C9_validate_quantity_skips_without_min_order (data : TicketData)
    (hmn : data.min_order = none) :
    TicketSchema.validate_quantity data = Except.ok () := by
  have hcm : TicketSchema.check_max_order data = Except.ok () := by
    cases hmx : data.max_order with
    | none => simp [TicketSchema.check_max_order, hmx, hmn]
    | some mx => simp [TicketSchema.check_max_order, hmx, hmn]
  have hcq : TicketSchema.check_quantity data = Except.ok () := by
    cases hq : data.quantity with
    | none => simp [TicketSchema.check_quantity, hq, hmn]
    | some q => simp [TicketSchema.check_quantity, hq, hmn]
  simp [TicketSchema.validate_quantity, hcm, hcq, bind, Except.bind]

/-- C9 witness: a payload with `max_order = 0` and `quantity = 0` but no
`min_order` is accepted outright. -/
theorem C9_witness :
    TicketSchema.validate_quantity ⟨none, none, none, some 0, some 0⟩ =
      Except.ok () :=
  C9_validate_quantity_skips_without_min_order ⟨none, none, none, some 0, some 0⟩ rfl

/-- C8: on an update payload (the original document carries the id of an
existing ticket), `TicketSchema.validate_date` backfills each missing date
from the stored ticket, so the date check is always evaluated on the
effective pair: payload value when present, stored value otherwise. -/
theorem C8_validate_date_backfills (db : Database) (i : Nat) (t : Ticket)
    (data : TicketData) (ht : db.tickets.find? (fun tk => tk.id == i) = some t) :
    TicketSchema.validate_date db (some i) data =
      if data.sales_starts_at.getD t.sales_starts_at ≥
          data.sales_ends_at.getD t.sales_ends_at then
        Except.error
          (ApiError.unprocessableEntity "/data/attributes/sales-ends-at"
            "sales-ends-at should be after sales-starts-at")
      else
        Except.ok
          { data with
            sales_starts_at := some (data.sales_starts_at.getD t.sales_starts_at),
            sales_ends_at := some (data.sales_ends_at.getD t.sales_ends_at) } := by
  obtain ⟨ss, se, mno, mxo, qn⟩ := data
  cases ss <;> cases se <;>
    simp [TicketSchema.validate_date, TicketSchema.backfill_dates, ticket_query_one,
      ht, dataGetDate, bind, Except.bind]

/-- C8 witness: a payload omitting both dates against a stored ticket with
sales window `[0, 10)` is backfilled and accepted with that window. -/
theorem C8_witness :
    TicketSchema.validate_date ⟨[⟨1, 1, [], [], 0, 10⟩], [], [], [], [], []⟩ (some 1)
        ⟨none, none, none, none, none⟩ =
      Except.ok ⟨some 0, some 10, none, none, none⟩ := by
  rw [C8_validate_date_backfills ⟨[⟨1, 1, [], [], 0, 10⟩], [], [], [], [], []⟩ 1
      ⟨1, 1, [], [], 0, 10⟩ ⟨none, none, none, none, none⟩ rfl]
  norm_num

/-- C7: on a `TicketDetail` request carrying an `attendee_id`,
`TicketDetail.before_get_object` raises `ObjectNotFound` when no such
ticket holder exists; otherwise it replaces the lookup `id` with the
attendee's `ticket_id` (the attendee's ticket when non-null, `None` when
null). -/
theorem C7_before_get_object_rewrites (db : Database) (vk : DetailViewKwargs)
    (aid : Nat) (hva : vk.attendee_id = some aid) :
    (db.ticket_holders.find? (fun h => h.id == aid) = none →
      TicketDetail.before_get_object db vk =
        Except.error
          (ApiError.objectNotFound "attendee_id"
            ("TicketHolder: " ++ toString aid ++ " not found")))
    ∧ ∀ a, db.ticket_holders.find? (fun h => h.id == aid) = some a →
        TicketDetail.before_get_object db vk = Except.ok { vk with id := a.ticket_id } := by
  constructor
  · intro hnone
    simp [TicketDetail.before_get_object, hva, safe_query_ticket_holder, hnone,
      bind, Except.bind]
  · intro a hsome
    cases hta : a.ticket_id <;>
      simp [TicketDetail.before_get_object, hva, safe_query_ticket_holder, hsome,
        hta, bind, Except.bind, pure, Except.pure]

/-- C7 witness: attendee 2 exists with ticket 9, so the detail lookup id
becomes 9. -/
theorem C7_witness :
    TicketDetail.before_get_object ⟨[], [], [], [], [⟨2, some 9⟩], []⟩
        ⟨some 1, some 2⟩ =
      Except.ok ⟨some 9, some 2⟩ :=
  (C7_before_get_object_rewrites ⟨[], [], [], [], [⟨2, some 9⟩], []⟩
      ⟨some 1, some 2⟩ 2 rfl).2 ⟨2, some 9⟩ rfl

/-- C10: each of the validated nullable fields of `TicketSchema` (`price`,
`quantity`, `min_order`, `max_order`, each declared with validator
`value >= 0` and `allow_none=True`) accepts a submitted value exactly when it
is non-negative — so zero passes and every negative value fails field
validation — and accepts an explicit null untouched. -/
theorem C10_field_validators (p : ℚ) (n : Int) :
    (TicketSchema.price (FieldVal.val p) = Except.ok (FieldVal.val p) ↔ 0 ≤ p)
    ∧ (p < 0 →
        TicketSchema.price (FieldVal.val p) =
          Except.error (ApiError.validationError "price"))
    ∧ TicketSchema.price FieldVal.null = Except.ok FieldVal.null
    ∧ (TicketSchema.quantity (FieldVal.val n) = Except.ok (FieldVal.val n) ↔ 0 ≤ n)
    ∧ (n < 0 →
        TicketSchema.quantity (FieldVal.val n) =
          Except.error (ApiError.validationError "quantity"))
    ∧ TicketSchema.quantity FieldVal.null = Except.ok FieldVal.null
    ∧ (TicketSchema.min_order (FieldVal.val n) = Except.ok (FieldVal.val n) ↔ 0 ≤ n)
    ∧ (n < 0 →
        TicketSchema.min_order (FieldVal.val n) =
          Except.error (ApiError.validationError "min_order"))
    ∧ TicketSchema.min_order FieldVal.null = Except.ok FieldVal.null
    ∧ (TicketSchema.max_order (FieldVal.val n) = Except.ok (FieldVal.val n) ↔ 0 ≤ n)
    ∧ (n < 0 →
        TicketSchema.max_order (FieldVal.val n) =
          Except.error (ApiError.validationError "max_order"))
    ∧ TicketSchema.max_order FieldVal.null = Except.ok FieldVal.null := by
  have hq : ∀ (f : String) (m : Int),
      (load_nullable (fun x : Int => x ≥ 0) f (FieldVal.val m) =
          Except.ok (FieldVal.val m) ↔ 0 ≤ m)
      ∧ (m < 0 →
          load_nullable (fun x : Int => x ≥ 0) f (FieldVal.val m) =
            Except.error (ApiError.validationError f)) := by
    intro f m
    constructor
    · by_cases h : 0 ≤ m <;> simp [load_nullable, h]
    · intro h
      simp [load_nullable, not_le.mpr h]
  have hp :
      (load_nullable (fun x : ℚ => x ≥ 0) "price" (FieldVal.val p) =
          Except.ok (FieldVal.val p) ↔ 0 ≤ p)
      ∧ (p < 0 →
          load_nullable (fun x : ℚ => x ≥ 0) "price" (FieldVal.val p) =
            Except.error (ApiError.validationError "price")) := by
    constructor
    · by_cases h : 0 ≤ p <;> simp [load_nullable, h]
    · intro h
      simp [load_nullable, not_le.mpr h]
  exact ⟨hp.1, hp.2, rfl, (hq "quantity" n).1, (hq "quantity" n).2, rfl,
    (hq "min_order" n).1, (hq "min_order" n).2, rfl,
    (hq "max_order" n).1, (hq "max_order" n).2, rfl⟩

/-- C10 witness: `-1` is rejected by each field validator; `0` and null are
accepted (shown here for `price` and `quantity`). -/
theorem C10_witness :
    TicketSchema.price (FieldVal.val (-1)) =
        Except.error (ApiError.validationError "price")
    ∧ TicketSchema.quantity (FieldVal.val (-1)) =
        Except.error (ApiError.validationError "quantity")
    ∧ TicketSchema.min_order (FieldVal.val (-1)) =
        Except.error (ApiError.validationError "min_order")
    ∧ TicketSchema.max_order (FieldVal.val (-1)) =
        Except.error (ApiError.validationError "max_order") :=
  ⟨(C10_field_validators (-1) (-1)).2.1 (by norm_num),
   (C10_field_validators (-1) (-1)).2.2.2.2.1 (by norm_num),
   (C10_field_validators (-1) (-1)).2.2.2.2.2.2.2.1 (by norm_num),
   (C10_field_validators (-1) (-1)).2.2.2.2.2.2.2.2.2.2.1 (by norm_num)⟩

/-- A ticket linked to access code 5 but carrying no ticket tag. -/
def ticketC1 : Ticket := ⟨1, 1, [], [5], 0, 10⟩

/-- A database holding `ticketC1`, ticket tag 7 and access code 5. -/
def dbC1 : Database := ⟨[ticketC1], [⟨7⟩], [⟨5⟩], [], [], []⟩

/-- View kwargs naming both ticket tag 7 and access code 5. -/
def vkC1 : ViewKwargs := ⟨some 7, none, none, some 5, none, none⟩

/-- C1 counterexample: with view kwargs naming both an existing ticket tag
(7) and an existing access code (5), `TicketList.query` returns a ticket that
is linked to access code 5 but does not carry tag 7 — the access-code branch
rebuilt the query from the full ticket table and discarded the ticket-tag
filter, so the filters do not compose conjunctively. -/
theorem C1_counterexample :
    TicketList.query dbC1 vkC1 = Except.ok [ticketC1]
    ∧ (dbC1.ticket_tags.find? (fun tg => tg.id == 7)).isSome = true
    ∧ (dbC1.access_codes.find? (fun c => c.id == 5)).isSome = true
    ∧ ticketC1.tag_ids.contains 7 = false :=
  ⟨rfl, rfl, rfl, rfl⟩

/-- C1 (amended): when view kwargs carry a truthy `access_code_id` naming an
existing access code, `TicketList.query` discards the previously built
ticket-tag (and event) filters and rebuilds the query as the full ticket
table filtered only by linkage to that access code; with no order kwargs the
result is exactly the tickets linked to the access code, irrespective of the
ticket-tag filter. -/
theorem C1_amended_access_code_discards_earlier_filters (db : Database)
    (vk : ViewKwargs) (g a : Nat) (tg : TicketTag) (ac : AccessCode)
    (hg : vk.ticket_tag_id = some g) (hg0 : g ≠ 0)
    (htg : db.ticket_tags.find? (fun x => x.id == g) = some tg)
    (ha : vk.access_code_id = some a) (ha0 : a ≠ 0)
    (hac : db.access_codes.find? (fun c => c.id == a) = some ac)
    (hev1 : vk.event_identifier = none) (hev2 : vk.event_id = none)
    (ho1 : vk.order_identifier = none) (ho2 : vk.order_id = none) :
    TicketList.query db vk =
      Except.ok (db.tickets.filter (fun t => t.access_code_ids.contains a)) := by
  have hacid : ac.id = a := by
    have := List.find?_some hac
    simpa using this
  simp [TicketList.query, hg, ha, hev1, hev2, ho1, ho2, truthyNat, truthyStr,
    hg0, ha0, safe_query_ticket_tag, safe_query_access_code, htg, hac, hacid,
    event_query, bind, Except.bind, pure, Except.pure]

/-- C1 witness: on the counterexample database the amended statement gives
exactly the tickets linked to access code 5. -/
theorem C1_amended_witness :
    TicketList.query dbC1 vkC1 =
      Except.ok (dbC1.tickets.filter (fun t => t.access_code_ids.contains 5)) :=
  C1_amended_access_code_discards_earlier_filters dbC1 vkC1 7 5 ⟨7⟩ ⟨5⟩
    rfl (by decide) rfl rfl (by decide) rfl rfl rfl rfl rfl

/-- C2: on a creation payload whose loaded data carries the `event`
relationship (the only key the schema produces for it) and a requester
without coorganizer access, `TicketListPost.before_post` does not surface
`ObjectNotFound`: formatting the error message reads `data['event_id']`,
which is absent, so a `KeyError` escapes instead. -/
theorem C2_before_post_raises_keyerror :
    TicketListPost.before_post (fun _ _ => false) [("event", PyVal.nat 7)] =
      Except.error (ApiError.keyError "event_id") := rfl

/-- The database for the order-identifier lookup: one order with identifier
`abc`. -/
def dbC6 : Database := ⟨[], [], [], [⟨3, "abc", []⟩], [], []⟩

/-- View kwargs carrying only `order_identifier = "abc"`. -/
def vkC6 : ViewKwargs := ⟨none, none, none, none, some "abc", none⟩

/-- C6: the order-identifier branch of `TicketList.query` calls `safe_query`
with attribute name `identifer` (a typo — the `Order` column is
`identifier`), so even when an order with the given identifier exists the
lookup fails with an `AttributeError` instead of resolving the order or
raising `ObjectNotFound`. -/
theorem C6_order_identifier_attribute_error :
    TicketList.query dbC6 vkC6 = Except.error (ApiError.attributeError "identifer")
    ∧ (dbC6.orders.find? (fun o => o.identifier == "abc")).isSome = true :=
  ⟨rfl, rfl⟩
